import Mathlib

/-!
Shallow embedding of the PDF editor component (`src/components/PDFEditor.tsx`).

The component is a single React function component. Its state hooks become the
fields of `EditorState`; each event handler becomes a pure function from the
state (plus the event data the browser supplies: pointer client coordinates,
the canvas bounding rectangle, the millisecond clock reading used by
`Date.now()`) to a new state together with the list of toast notifications it
emits. JavaScript numbers are modelled as rationals.
-/

namespace PDFEditor

/-- A selected file, as far as the component inspects it: `handleFileUpload`
reads only `file.type`. -/
structure FileRef where
  name : String
  fileType : String
deriving DecidableEq, Repr

/-- Model of `interface TextAnnotation` from the source. -/
structure TextAnnotation where
  id : String
  x : ℚ
  y : ℚ
  text : String
  fontSize : ℚ
  color : String
deriving DecidableEq, Repr

/-- Model of `interface BlurArea` from the source. -/
structure BlurArea where
  id : String
  x : ℚ
  y : ℚ
  width : ℚ
  height : ℚ
deriving DecidableEq, Repr

/-- The tool mode: `activeTool` takes values in `'select' | 'text' | 'blur' | 'erase'`. -/
inductive Tool
  | select
  | text
  | blur
  | erase
deriving DecidableEq, Repr

/-- A point with rational coordinates (used for `startPoint` and for
document-space positions). -/
structure Point where
  x : ℚ
  y : ℚ
deriving DecidableEq, Repr

/-- The `useState` hooks of the component, gathered into one record. -/
structure EditorState where
  pdfFile : Option FileRef
  numPages : Nat
  currentPage : Nat
  scale : ℚ
  activeTool : Tool
  textAnnotations : List TextAnnotation
  blurAreas : List BlurArea
  isDrawing : Bool
  startPoint : Option Point
  newText : String
  fontSize : ℚ
  textColor : String
  pdfLoading : Bool
deriving DecidableEq, Repr

/-- The initial values of the `useState` hooks. -/
def initialState : EditorState where
  pdfFile := none
  numPages := 0
  currentPage := 1
  scale := 1
  activeTool := Tool.select
  textAnnotations := []
  blurAreas := []
  isDrawing := false
  startPoint := none
  newText := ""
  fontSize := 16
  textColor := "#000000"
  pdfLoading := false

/-- Toast notifications emitted through `sonner`. -/
inductive Toast
  | success (msg : String)
  | error (msg : String)
  | info (msg : String)
deriving DecidableEq, Repr

/-- Model of `Date.now().toString()`: the identifier given to a newly created
annotation is the millisecond clock reading rendered in decimal. -/
def mkAnnotationId (now : Nat) : String :=
  Nat.repr now

/-- The character class JavaScript `String.prototype.trim` strips: the
ECMAScript WhiteSpace code points (tab U+0009, vertical tab U+000B, form
feed U+000C, space U+0020, no-break space U+00A0, BOM U+FEFF, and the
Unicode Space_Separator code points U+1680, U+2000..U+200A, U+202F,
U+205F, U+3000) together with the LineTerminator code points (LF U+000A,
CR U+000D, line separator U+2028, paragraph separator U+2029). -/
def isJsWhitespace (c : Char) : Bool :=
  c.toNat == 0x9 || c.toNat == 0xB || c.toNat == 0xC || c.toNat == 0x20 ||
  c.toNat == 0xA0 || c.toNat == 0xFEFF || c.toNat == 0x1680 ||
  (decide (0x2000 ≤ c.toNat) && decide (c.toNat ≤ 0x200A)) ||
  c.toNat == 0x202F || c.toNat == 0x205F || c.toNat == 0x3000 ||
  c.toNat == 0xA || c.toNat == 0xD || c.toNat == 0x2028 || c.toNat == 0x2029

/-- Model of JavaScript `String.prototype.trim`: strip leading and trailing
JavaScript whitespace from the string. -/
def jsTrim (s : String) : String :=
  List.asString (((s.data.dropWhile isJsWhitespace).reverse.dropWhile
    isJsWhitespace).reverse)

/-- The screen-to-document mapping the handlers all inline:
`x = (event.clientX - rect.left) / scale`, `y = (event.clientY - rect.top) / scale`. -/
def toDocumentSpace (clientX clientY rectLeft rectTop s : ℚ) : Point :=
  ⟨(clientX - rectLeft) / s, (clientY - rectTop) / s⟩

/-- The CSS offset of an overlay element inside the canvas container:
`left: x * scale`, `top: y * scale` (the text and blur overlay styles). -/
def overlayPosition (p : Point) (s : ℚ) : Point :=
  ⟨p.x * s, p.y * s⟩

/-- The client-space position at which an overlay for document point `p`
renders: the canvas bounding rectangle origin plus the CSS offset
`overlayPosition p s`. -/
def toScreenSpace (p : Point) (rectLeft rectTop s : ℚ) : Point :=
  ⟨rectLeft + (overlayPosition p s).x, rectTop + (overlayPosition p s).y⟩

/-- Handler `handleCanvasClick`: with the text tool active, a click with non-blank
pending text adds a `TextAnnotation` at the document-space click point and
clears the pending text; blank pending text is rejected with an error toast
and no state change. (`!newText.trim()` in the source is true exactly when
the trimmed string is empty.) -/
def handleCanvasClick (now : Nat) (st : EditorState)
    (clientX clientY rectLeft rectTop : ℚ) : EditorState × List Toast :=
  if st.activeTool ≠ Tool.text then (st, [])
  else if jsTrim st.newText = "" then
    (st, [Toast.error "Please enter text before placing it on the PDF"])
  else
    let p := toDocumentSpace clientX clientY rectLeft rectTop st.scale
    let ann : TextAnnotation :=
      { id := mkAnnotationId now
        x := p.x
        y := p.y
        text := st.newText
        fontSize := st.fontSize
        color := st.textColor }
    ({ st with
        textAnnotations := st.textAnnotations ++ [ann]
        newText := "" },
      [Toast.success "Text annotation added"])

/-- The predicate of the text-annotation filter in the erase branch of
`handleMouseDown`: the source keeps an annotation when
`Math.sqrt((a.x - x)^2 + (a.y - y)^2) > 30`; over the rationals this is
stated equivalently as the squared comparison (both sides are nonnegative,
and the square root is strictly monotone). -/
def keepTextOnErase (p : Point) (a : TextAnnotation) : Bool :=
  decide ((a.x - p.x) ^ 2 + (a.y - p.y) ^ 2 > 900)

/-- The predicate of the blur-area filter in the erase branch of
`handleMouseDown`: the source removes an area when
`x >= area.x && x <= area.x + area.width && y >= area.y && y <= area.y + area.height`. -/
def keepBlurOnErase (p : Point) (area : BlurArea) : Bool :=
  !(decide (p.x ≥ area.x) && decide (p.x ≤ area.x + area.width) &&
    decide (p.y ≥ area.y) && decide (p.y ≤ area.y + area.height))

/-- Handler `handleMouseDown`: with the blur tool, record the document-space start
point and enter the drawing sub-state; with the erase tool, filter both
collections around the document-space click point; other tools do nothing. -/
def handleMouseDown (st : EditorState)
    (clientX clientY rectLeft rectTop : ℚ) : EditorState × List Toast :=
  match st.activeTool with
  | Tool.blur =>
    let p := toDocumentSpace clientX clientY rectLeft rectTop st.scale
    ({ st with startPoint := some p, isDrawing := true }, [])
  | Tool.erase =>
    let p := toDocumentSpace clientX clientY rectLeft rectTop st.scale
    ({ st with
        textAnnotations := st.textAnnotations.filter (keepTextOnErase p)
        blurAreas := st.blurAreas.filter (keepBlurOnErase p) },
      [Toast.success "Annotation erased"])
  | _ => (st, [])

/-- Handler `handleMouseUp`: while drawing with the blur tool, compute the bounding
rectangle between the start point and the document-space release point; if
both dimensions exceed 10 a `BlurArea` is appended, otherwise an error toast
is emitted; `isDrawing` and `startPoint` are reset unconditionally. -/
def handleMouseUp (now : Nat) (st : EditorState)
    (clientX clientY rectLeft rectTop : ℚ) : EditorState × List Toast :=
  match st.startPoint with
  | some sp =>
    if st.isDrawing = true ∧ st.activeTool = Tool.blur then
      let e := toDocumentSpace clientX clientY rectLeft rectTop st.scale
      let width := |e.x - sp.x|
      let height := |e.y - sp.y|
      let x := min sp.x e.x
      let y := min sp.y e.y
      if width > 10 ∧ height > 10 then
        ({ st with
            blurAreas := st.blurAreas ++
              [{ id := mkAnnotationId now, x := x, y := y,
                 width := width, height := height }]
            isDrawing := false
            startPoint := none },
          [Toast.success "Blur area added"])
      else
        ({ st with isDrawing := false, startPoint := none },
          [Toast.error "Blur area too small - drag a larger area"])
    else
      ({ st with isDrawing := false, startPoint := none }, [])
  | none => ({ st with isDrawing := false, startPoint := none }, [])

/-- Handler `handleFileUpload`: a file whose media type is `application/pdf` replaces
the current document, sets the loading flag, resets both annotation
collections and the current page; anything else is rejected with an error
toast and no state change. -/
def handleFileUpload (st : EditorState) (file : Option FileRef) :
    EditorState × List Toast :=
  match file with
  | some f =>
    if f.fileType = "application/pdf" then
      ({ st with
          pdfLoading := true
          pdfFile := some f
          textAnnotations := []
          blurAreas := []
          currentPage := 1 },
        [Toast.success "PDF file selected, loading..."])
    else (st, [Toast.error "Please select a valid PDF file"])
  | none => (st, [Toast.error "Please select a valid PDF file"])

/-- Handler `onDocumentLoadSuccess`: store the page count, reset the page index,
clear the loading flag. -/
def onDocumentLoadSuccess (st : EditorState) (numPages : Nat) :
    EditorState × List Toast :=
  ({ st with numPages := numPages, currentPage := 1, pdfLoading := false },
    [Toast.success ("PDF loaded successfully! " ++ Nat.repr numPages ++ " pages found.")])

/-- Handler `onDocumentLoadError`: only the loading flag is cleared; every other
field, the stored `pdfFile` included, is left as it was. -/
def onDocumentLoadError (st : EditorState) : EditorState × List Toast :=
  ({ st with pdfLoading := false },
    [Toast.error "Failed to load PDF file. Please try again."])

/-- The toolbar buttons: each calls only `setActiveTool`. -/
def selectTool (st : EditorState) (t : Tool) : EditorState :=
  { st with activeTool := t }

/-- The two kinds handled by `removeAnnotation`. -/
inductive AnnKind
  | text
  | blur
deriving DecidableEq, Repr

/-- Handler `removeAnnotation`: drop the entry with the given id from the chosen
collection. -/
def removeAnnotation (st : EditorState) (id : String) (kind : AnnKind) :
    EditorState × List Toast :=
  match kind with
  | AnnKind.text =>
    ({ st with textAnnotations := st.textAnnotations.filter (fun a => a.id != id) },
      [Toast.success "Annotation removed"])
  | AnnKind.blur =>
    ({ st with blurAreas := st.blurAreas.filter (fun area => area.id != id) },
      [Toast.success "Annotation removed"])

/-- Handler `zoomIn`: `scale := min (scale + 0.2) 3.0`. -/
def zoomIn (st : EditorState) : EditorState :=
  { st with scale := min (st.scale + 2/10) 3 }

/-- Handler `zoomOut`: `scale := max (scale - 0.2) 0.5`. -/
def zoomOut (st : EditorState) : EditorState :=
  { st with scale := max (st.scale - 2/10) (1/2) }

/-- The previous-page button: `currentPage := max (currentPage - 1) 1`. -/
def prevPage (st : EditorState) : EditorState :=
  { st with currentPage := max (st.currentPage - 1) 1 }

/-- The next-page button: `currentPage := min (currentPage + 1) numPages`. -/
def nextPage (st : EditorState) : EditorState :=
  { st with currentPage := min (st.currentPage + 1) st.numPages }

/-! ### Export engine (`downloadModifiedPDF`)

The routine loads the original bytes, selects the page `currentPage - 1`,
and issues one `drawText` per stored text annotation and one `drawRectangle`
per stored blur area. We model the pdf-lib calls as a list of draw
operations on the selected page. -/

/-- An RGB colour with components in the unit interval, as built by
pdf-lib's `rgb(r, g, b)`. -/
structure RGB where
  r : ℚ
  g : ℚ
  b : ℚ
deriving DecidableEq, Repr

/-- The two pdf-lib page operations the export routine issues. -/
inductive DrawOp
  | drawText (text : String) (x y size : ℚ) (color : RGB)
  | drawRectangle (x y width height : ℚ) (color : RGB) (opacity : ℚ)
deriving DecidableEq, Repr

/-- The numeric value of one hexadecimal digit, as `parseInt(_, 16)` reads
it (case-insensitive). -/
def hexDigitVal (c : Char) : Nat :=
  if '0' ≤ c ∧ c ≤ '9' then c.toNat - 48
  else if 'a' ≤ c ∧ c ≤ 'f' then c.toNat - 97 + 10
  else if 'A' ≤ c ∧ c ≤ 'F' then c.toNat - 65 + 10
  else 0

/-- Model of `parseInt(s.slice(i, i + 2), 16)`: the byte encoded by the two hex
digits of `s` starting at character index `i`. -/
def hexByte (s : String) (i : Nat) : Nat :=
  match (s.data.drop i).take 2 with
  | [c1, c2] => 16 * hexDigitVal c1 + hexDigitVal c2
  | _ => 0

/-- The colour passed to `drawText`:
`rgb(parseInt(color.slice(1,3),16)/255, parseInt(color.slice(3,5),16)/255, parseInt(color.slice(5,7),16)/255)`. -/
def colorFromHex (s : String) : RGB :=
  ⟨(hexByte s 1 : ℚ) / 255, (hexByte s 3 : ℚ) / 255, (hexByte s 5 : ℚ) / 255⟩

/-- The draw operations `downloadModifiedPDF` issues on the selected page of
height `pageHeight`: every text annotation first, then every blur area. -/
def exportPageOps (pageHeight : ℚ) (textAnnotations : List TextAnnotation)
    (blurAreas : List BlurArea) : List DrawOp :=
  textAnnotations.map (fun a =>
    DrawOp.drawText a.text a.x (pageHeight - a.y)
      a.fontSize (colorFromHex a.color))
  ++ blurAreas.map (fun area =>
    DrawOp.drawRectangle area.x (pageHeight - area.y - area.height)
      area.width area.height ⟨8/10, 8/10, 8/10⟩ (7/10))

/-! ### The event-level step function

Discrete user-interface events, each carrying the data the browser supplies
to the corresponding handler. Pointer events carry the client coordinates
and the canvas bounding-rectangle origin at the time of the event; events
that create annotations carry the `Date.now()` reading. -/

inductive Event
  | toolSelect (t : Tool)
  | fileUpload (file : Option FileRef)
  | loadSuccess (numPages : Nat)
  | loadError
  | setText (s : String)
  | setFontSizeVal (v : ℚ)
  | setColor (c : String)
  | canvasClick (now : Nat) (clientX clientY rectLeft rectTop : ℚ)
  | mouseDown (clientX clientY rectLeft rectTop : ℚ)
  | mouseUp (now : Nat) (clientX clientY rectLeft rectTop : ℚ)
  | removeClick (id : String) (kind : AnnKind)
  | zoomInClick
  | zoomOutClick
  | prevPageClick
  | nextPageClick
deriving DecidableEq, Repr

/-- Dispatch one event to its handler. -/
def step (st : EditorState) (e : Event) : EditorState × List Toast :=
  match e with
  | Event.toolSelect t => (selectTool st t, [])
  | Event.fileUpload file => handleFileUpload st file
  | Event.loadSuccess n => onDocumentLoadSuccess st n
  | Event.loadError => onDocumentLoadError st
  | Event.setText s => ({ st with newText := s }, [])
  | Event.setFontSizeVal v => ({ st with fontSize := v }, [])
  | Event.setColor c => ({ st with textColor := c }, [])
  | Event.canvasClick now cX cY rL rT => handleCanvasClick now st cX cY rL rT
  | Event.mouseDown cX cY rL rT => handleMouseDown st cX cY rL rT
  | Event.mouseUp now cX cY rL rT => handleMouseUp now st cX cY rL rT
  | Event.removeClick id kind => removeAnnotation st id kind
  | Event.zoomInClick => (zoomIn st, [])
  | Event.zoomOutClick => (zoomOut st, [])
  | Event.prevPageClick => (prevPage st, [])
  | Event.nextPageClick => (nextPage st, [])

/-- Run a sequence of events, discarding the toasts. -/
def run (st : EditorState) : List Event → EditorState
  | [] => st
  | e :: es => run (step st e).1 es

/-! ### Decimal rendering of identifiers

`mkAnnotationId` is `Nat.repr`, whose core definition runs on fuel. The
fuel-free counterpart below lets us reason about it by well-founded
recursion. -/

/-- The decimal digit characters of `n`, most significant first: the
fuel-free counterpart of `Nat.toDigits 10`. -/
def decimalDigits (n : Nat) : List Char :=
  if n < 10 then [Nat.digitChar n]
  else decimalDigits (n / 10) ++ [Nat.digitChar (n % 10)]
decreasing_by exact Nat.div_lt_self (by omega) (by omega)

/-- Read a list of decimal digit characters back as a number. -/
def decodeDecimal (l : List Char) : Nat :=
  l.foldl (fun acc c => 10 * acc + (c.toNat - 48)) 0

/-! ### Sample data for concrete instantiations -/

/-- A sample PDF file reference. -/
def samplePdf : FileRef := ⟨"doc.pdf", "application/pdf"⟩

/-- A sample annotation anchored at the origin. -/
def annOrigin : TextAnnotation :=
  { id := "1", x := 0, y := 0, text := "hi", fontSize := 16, color := "#000000" }

/-- A sample annotation far from the origin. -/
def annFar : TextAnnotation :=
  { id := "9", x := 100, y := 100, text := "far", fontSize := 16, color := "#000000" }

/-- A sample blur area covering the square from the origin to (50, 50). -/
def blurBig : BlurArea := { id := "2", x := 0, y := 0, width := 50, height := 50 }

/-- A sample blur area far from the origin. -/
def blurFar : BlurArea := { id := "3", x := 100, y := 100, width := 5, height := 5 }

/-- A state in the middle of a blur drag that started at the origin. -/
def drawingState : EditorState :=
  { initialState with
      activeTool := Tool.blur
      isDrawing := true
      startPoint := some ⟨0, 0⟩ }

/-- A state with the erase tool active and some annotations present. -/
def eraseState : EditorState :=
  { initialState with
      activeTool := Tool.erase
      textAnnotations := [annOrigin, annFar]
      blurAreas := [blurBig, blurFar] }

/-- A state with annotations present and a later page selected. -/
def dirtyState : EditorState :=
  { initialState with
      textAnnotations := [annOrigin]
      blurAreas := [blurBig]
      currentPage := 3 }

/-! ## Helper lemmas -/

/-- The function `jsTrim` returns the empty string exactly when every character of the
input is JavaScript whitespace. -/
theorem jsTrim_eq_empty_iff (s : String) :
    jsTrim s = "" ↔ ∀ c ∈ s.data, isJsWhitespace c = true := by
  unfold jsTrim
  constructor
  · intro h c hc
    have hl : ((s.data.dropWhile isJsWhitespace).reverse.dropWhile
        isJsWhitespace).reverse = [] := by
      have hd := congrArg String.data h
      simpa [List.asString] using hd
    rw [List.reverse_eq_nil_iff, List.dropWhile_eq_nil_iff] at hl
    have hrest : ∀ x ∈ s.data.dropWhile isJsWhitespace, isJsWhitespace x = true := by
      intro x hx
      exact hl x (List.mem_reverse.mpr hx)
    have hsplit := List.takeWhile_append_dropWhile (p := isJsWhitespace) (l := s.data)
    rw [← hsplit] at hc
    rcases List.mem_append.mp hc with hc1 | hc2
    · exact List.mem_takeWhile_imp hc1
    · exact hrest c hc2
  · intro h
    have hl : s.data.dropWhile isJsWhitespace = [] :=
      List.dropWhile_eq_nil_iff.mpr h
    rw [hl]
    rfl

/-- The square-root comparison of the erase filter, reduced to rationals:
for a rational `q`, `30 < Real.sqrt q` holds exactly when `900 < q`. -/
theorem sqrt_gt_thirty_iff (q : ℚ) : 30 < Real.sqrt (q : ℝ) ↔ 900 < q := by
  rw [Real.lt_sqrt (by norm_num : (0 : ℝ) ≤ 30)]
  rw [show ((30 : ℝ)) ^ 2 = ((900 : ℚ) : ℝ) by norm_num]
  exact Rat.cast_lt

/-- The Euclidean distance between two points exceeds 30 exactly when the
sum of the squared coordinate differences exceeds 900. -/
theorem dist_gt_thirty_iff (dx dy : ℚ) :
    30 < Real.sqrt ((dx : ℝ) ^ 2 + (dy : ℝ) ^ 2) ↔ 900 < dx ^ 2 + dy ^ 2 := by
  have h : ((dx : ℝ)) ^ 2 + (dy : ℝ) ^ 2 = ((dx ^ 2 + dy ^ 2 : ℚ) : ℝ) := by
    push_cast
    ring
  rw [h, sqrt_gt_thirty_iff]

/-- The erase filter keeps a text annotation exactly when its Euclidean
distance from the click point exceeds 30. -/
theorem keepTextOnErase_eq_true_iff (p : Point) (a : TextAnnotation) :
    keepTextOnErase p a = true ↔
      30 < Real.sqrt (((a.x - p.x : ℚ) : ℝ) ^ 2 + ((a.y - p.y : ℚ) : ℝ) ^ 2) := by
  rw [dist_gt_thirty_iff]
  simp [keepTextOnErase]

/-- The erase filter keeps a blur area exactly when its rectangle does not
contain the click point (inclusive bounds). -/
theorem keepBlurOnErase_eq_true_iff (p : Point) (area : BlurArea) :
    keepBlurOnErase p area = true ↔
      ¬(area.x ≤ p.x ∧ p.x ≤ area.x + area.width ∧
        area.y ≤ p.y ∧ p.y ≤ area.y + area.height) := by
  unfold keepBlurOnErase
  rw [← Bool.decide_and, ← Bool.decide_and, ← Bool.decide_and, Bool.not_eq_true',
    decide_eq_false_iff_not]
  constructor <;> intro h hc <;> apply h <;> tauto

/-- While the active tool is not the blur tool, a step that is not an
explicit selection of the blur tool keeps the tool away from blur and never
adds a blur area. -/
theorem step_no_blur_creation (st : EditorState) (e : Event)
    (hTool : st.activeTool ≠ Tool.blur)
    (hNo : e ≠ Event.toolSelect Tool.blur) :
    (step st e).1.activeTool ≠ Tool.blur ∧
    ∀ b ∈ (step st e).1.blurAreas, b ∈ st.blurAreas := by
  cases e with
  | toolSelect t =>
    refine ⟨?_, fun b hb => hb⟩
    intro h
    exact hNo (congrArg Event.toolSelect (show t = Tool.blur from h))
  | fileUpload file =>
    cases file with
    | none => exact ⟨hTool, fun b hb => hb⟩
    | some f =>
      by_cases hf : f.fileType = "application/pdf"
      · refine ⟨?_, ?_⟩
        · simpa [step, handleFileUpload, hf] using hTool
        · intro b hb
          simp [step, handleFileUpload, hf] at hb
      · refine ⟨?_, ?_⟩
        · simpa [step, handleFileUpload, hf] using hTool
        · intro b hb
          simpa [step, handleFileUpload, hf] using hb
  | loadSuccess n => exact ⟨hTool, fun b hb => hb⟩
  | loadError => exact ⟨hTool, fun b hb => hb⟩
  | setText s => exact ⟨hTool, fun b hb => hb⟩
  | setFontSizeVal v => exact ⟨hTool, fun b hb => hb⟩
  | setColor c => exact ⟨hTool, fun b hb => hb⟩
  | canvasClick now cX cY rL rT =>
    constructor
    · show (handleCanvasClick now st cX cY rL rT).1.activeTool ≠ Tool.blur
      unfold handleCanvasClick
      split
      · exact hTool
      · split
        · exact hTool
        · exact hTool
    · show ∀ b ∈ (handleCanvasClick now st cX cY rL rT).1.blurAreas, b ∈ st.blurAreas
      unfold handleCanvasClick
      split
      · exact fun b hb => hb
      · split
        · exact fun b hb => hb
        · exact fun b hb => hb
  | mouseDown cX cY rL rT =>
    cases hat : st.activeTool with
    | blur => exact absurd hat hTool
    | select =>
      refine ⟨?_, ?_⟩
      · show (handleMouseDown st cX cY rL rT).1.activeTool ≠ Tool.blur
        simp [handleMouseDown, hat]
      · show ∀ b ∈ (handleMouseDown st cX cY rL rT).1.blurAreas, b ∈ st.blurAreas
        simp only [handleMouseDown, hat]
        exact fun b hb => hb
    | text =>
      refine ⟨?_, ?_⟩
      · show (handleMouseDown st cX cY rL rT).1.activeTool ≠ Tool.blur
        simp [handleMouseDown, hat]
      · show ∀ b ∈ (handleMouseDown st cX cY rL rT).1.blurAreas, b ∈ st.blurAreas
        simp only [handleMouseDown, hat]
        exact fun b hb => hb
    | erase =>
      refine ⟨?_, ?_⟩
      · show (handleMouseDown st cX cY rL rT).1.activeTool ≠ Tool.blur
        simp [handleMouseDown, hat]
      · show ∀ b ∈ (handleMouseDown st cX cY rL rT).1.blurAreas, b ∈ st.blurAreas
        simp only [handleMouseDown, hat]
        exact fun b hb => List.mem_of_mem_filter hb
  | mouseUp now cX cY rL rT =>
    have hcond : ¬(st.isDrawing = true ∧ st.activeTool = Tool.blur) := by
      rintro ⟨_, h2⟩
      exact hTool h2
    cases hsp : st.startPoint with
    | none =>
      refine ⟨?_, ?_⟩
      · show (handleMouseUp now st cX cY rL rT).1.activeTool ≠ Tool.blur
        simp only [handleMouseUp, hsp]
        exact hTool
      · show ∀ b ∈ (handleMouseUp now st cX cY rL rT).1.blurAreas, b ∈ st.blurAreas
        simp only [handleMouseUp, hsp]
        exact fun b hb => hb
    | some sp =>
      refine ⟨?_, ?_⟩
      · show (handleMouseUp now st cX cY rL rT).1.activeTool ≠ Tool.blur
        simp only [handleMouseUp, hsp, hcond, if_false]
        exact hTool
      · show ∀ b ∈ (handleMouseUp now st cX cY rL rT).1.blurAreas, b ∈ st.blurAreas
        simp only [handleMouseUp, hsp, hcond, if_false]
        exact fun b hb => hb
  | removeClick id kind =>
    cases kind with
    | text => exact ⟨hTool, fun b hb => hb⟩
    | blur => exact ⟨hTool, fun b hb => List.mem_of_mem_filter hb⟩
  | zoomInClick => exact ⟨hTool, fun b hb => hb⟩
  | zoomOutClick => exact ⟨hTool, fun b hb => hb⟩
  | prevPageClick => exact ⟨hTool, fun b hb => hb⟩
  | nextPageClick => exact ⟨hTool, fun b hb => hb⟩

/-- The function `Nat.toDigitsCore` with sufficient fuel agrees with the fuel-free
`decimalDigits`. -/
theorem toDigitsCore_eq_decimalDigits :
    ∀ fuel n : Nat, n ≤ fuel → ∀ ds : List Char,
      Nat.toDigitsCore 10 (fuel + 1) n ds = decimalDigits n ++ ds := by
  intro fuel
  induction fuel with
  | zero =>
    intro n hn ds
    have h0 : n = 0 := Nat.le_zero.mp hn
    subst h0
    simp [Nat.toDigitsCore, decimalDigits]
  | succ f ih =>
    intro n hn ds
    have hunfold : Nat.toDigitsCore 10 (f + 1 + 1) n ds =
        if n / 10 = 0 then Nat.digitChar (n % 10) :: ds
        else Nat.toDigitsCore 10 (f + 1) (n / 10) (Nat.digitChar (n % 10) :: ds) := rfl
    rw [hunfold]
    by_cases h10 : n / 10 = 0
    · rw [if_pos h10]
      have hlt : n < 10 := by omega
      rw [decimalDigits, if_pos hlt, Nat.mod_eq_of_lt hlt]
      rfl
    · rw [if_neg h10]
      have hle : n / 10 ≤ f := by omega
      rw [ih (n / 10) hle (Nat.digitChar (n % 10) :: ds)]
      conv_rhs => rw [decimalDigits, if_neg (by omega : ¬ n < 10)]
      simp

/-- The function `Nat.toDigits 10` agrees with `decimalDigits`. -/
theorem toDigits_eq_decimalDigits (n : Nat) : Nat.toDigits 10 n = decimalDigits n := by
  have h := toDigitsCore_eq_decimalDigits n n (le_refl n) []
  simpa [Nat.toDigits] using h

/-- Each digit character decodes back to the digit that produced it. -/
theorem digitChar_toNat_sub (d : Nat) (hd : d < 10) :
    (Nat.digitChar d).toNat - 48 = d := by
  interval_cases d <;> rfl

/-- Folding the decoding step over `decimalDigits n` from any accumulator
recovers `n` (shifted by the digit count). -/
theorem foldl_decimalDigits (n : Nat) :
    ∀ acc : Nat,
      (decimalDigits n).foldl (fun acc c => 10 * acc + (c.toNat - 48)) acc =
        acc * 10 ^ (decimalDigits n).length + n := by
  induction n using Nat.strong_induction_on with
  | _ n ih =>
    intro acc
    by_cases h : n < 10
    · rw [decimalDigits, if_pos h]
      simp [digitChar_toNat_sub n h]
      ring
    · rw [decimalDigits, if_neg h]
      rw [List.foldl_append]
      have hdiv : n / 10 < n := Nat.div_lt_self (by omega) (by omega)
      rw [ih (n / 10) hdiv acc]
      simp only [List.foldl]
      rw [digitChar_toNat_sub (n % 10) (Nat.mod_lt n (by omega))]
      rw [List.length_append]
      simp only [List.length_singleton]
      generalize (decimalDigits (n / 10)).length = k
      rw [pow_succ]
      conv_rhs => rw [← Nat.div_add_mod n 10]
      ring

/-- Decoding the decimal digits of `n` yields `n`. -/
theorem decodeDecimal_decimalDigits (n : Nat) :
    decodeDecimal (decimalDigits n) = n := by
  have h := foldl_decimalDigits n 0
  simpa [decodeDecimal] using h

/-- The digit rendering `decimalDigits` is injective. -/
theorem decimalDigits_inj (m n : Nat) (h : decimalDigits m = decimalDigits n) :
    m = n := by
  have hm := decodeDecimal_decimalDigits m
  rw [h, decodeDecimal_decimalDigits n] at hm
  exact hm.symm

/-- The rendering `Nat.repr` is injective: distinct numbers render to distinct decimal
strings. -/
theorem natRepr_inj (m n : Nat) (h : Nat.repr m = Nat.repr n) : m = n := by
  apply decimalDigits_inj
  rw [← toDigits_eq_decimalDigits, ← toDigits_eq_decimalDigits]
  have hd := congrArg String.data h
  simpa [Nat.repr, List.asString] using hd

/-! ## Claim theorems -/

/-- C4: composing the screen-to-document mapping
(`(clientPoint - rectOrigin) / scale` per axis) with the document-to-screen
mapping (the canvas origin plus the `documentPoint * scale` overlay offset)
returns the original screen point exactly, for every scale in the zoom
range `[0.5, 3.0]` and every viewport origin. -/
theorem C4_coordinate_roundtrip (clientX clientY rectLeft rectTop s : ℚ)
    (hlo : 1/2 ≤ s) (hhi : s ≤ 3) :
    toScreenSpace (toDocumentSpace clientX clientY rectLeft rectTop s)
      rectLeft rectTop s = ⟨clientX, clientY⟩ := by
  have hs : s ≠ 0 := by
    intro h
    rw [h] at hlo
    norm_num at hlo
  simp only [toScreenSpace, toDocumentSpace, overlayPosition]
  rw [div_mul_cancel₀ _ hs, div_mul_cancel₀ _ hs]
  congr 1 <;> ring

/-- C4 witness: a concrete round trip at scale 2. -/
theorem C4_witness :
    toScreenSpace (toDocumentSpace 100 120 7 9 2) 7 9 2 = ⟨100, 120⟩ :=
  C4_coordinate_roundtrip 100 120 7 9 2 (by norm_num) (by norm_num)

/-- C5: accepting a new valid PDF file selection resets the text annotation
collection to empty, the blur area collection to empty, and the current page
index to 1. -/
theorem C5_new_document_resets (st : EditorState) (f : FileRef)
    (hf : f.fileType = "application/pdf") :
    (handleFileUpload st (some f)).1.textAnnotations = [] ∧
    (handleFileUpload st (some f)).1.blurAreas = [] ∧
    (handleFileUpload st (some f)).1.currentPage = 1 := by
  simp [handleFileUpload, hf]

/-- C5 witness: uploading over a state that has annotations and sits on
page 3 clears both collections and returns to page 1. -/
theorem C5_witness :
    (handleFileUpload dirtyState (some samplePdf)).1.textAnnotations = [] ∧
    (handleFileUpload dirtyState (some samplePdf)).1.blurAreas = [] ∧
    (handleFileUpload dirtyState (some samplePdf)).1.currentPage = 1 :=
  C5_new_document_resets dirtyState samplePdf rfl

/-- C8: a text-mode click with empty pending text leaves the state exactly
as it was (so no annotation is created and the active tool remains the text
tool) and reports a validation failure. -/
theorem C8_empty_text_rejected (now : Nat) (st : EditorState)
    (clientX clientY rectLeft rectTop : ℚ)
    (hTool : st.activeTool = Tool.text) (hEmpty : st.newText = "") :
    handleCanvasClick now st clientX clientY rectLeft rectTop =
      (st, [Toast.error "Please enter text before placing it on the PDF"]) ∧
    (handleCanvasClick now st clientX clientY rectLeft rectTop).1.activeTool =
      Tool.text := by
  have htrim : jsTrim st.newText = "" := by
    rw [hEmpty]
    rfl
  have heq : handleCanvasClick now st clientX clientY rectLeft rectTop =
      (st, [Toast.error "Please enter text before placing it on the PDF"]) := by
    simp [handleCanvasClick, hTool, htrim]
  exact ⟨heq, by rw [heq]; exact hTool⟩

/-- C8 witness: a concrete text-mode click with empty pending text. -/
theorem C8_witness :
    handleCanvasClick 7 { initialState with activeTool := Tool.text } 10 20 0 0 =
      ({ initialState with activeTool := Tool.text },
        [Toast.error "Please enter text before placing it on the PDF"]) ∧
    (handleCanvasClick 7 { initialState with activeTool := Tool.text }
        10 20 0 0).1.activeTool = Tool.text :=
  C8_empty_text_rejected 7 _ 10 20 0 0 rfl rfl

/-- C10: a text-mode click whose pending text consists only of whitespace
characters is rejected exactly like an empty one — the state (the pending
text included) is unchanged and the same validation failure is reported —
while a pending text with at least one non-whitespace character results in
a placed annotation. -/
theorem C10_whitespace_only_rejected (now : Nat) (st : EditorState)
    (clientX clientY rectLeft rectTop : ℚ)
    (hTool : st.activeTool = Tool.text) :
    ((∀ c ∈ st.newText.data, isJsWhitespace c = true) →
      handleCanvasClick now st clientX clientY rectLeft rectTop =
        (st, [Toast.error "Please enter text before placing it on the PDF"])) ∧
    ((∃ c ∈ st.newText.data, ¬ isJsWhitespace c = true) →
      (handleCanvasClick now st clientX clientY rectLeft rectTop).1.textAnnotations =
        st.textAnnotations ++
          [{ id := mkAnnotationId now
             x := (toDocumentSpace clientX clientY rectLeft rectTop st.scale).x
             y := (toDocumentSpace clientX clientY rectLeft rectTop st.scale).y
             text := st.newText
             fontSize := st.fontSize
             color := st.textColor }]) := by
  constructor
  · intro hws
    have htrim : jsTrim st.newText = "" := (jsTrim_eq_empty_iff st.newText).mpr hws
    simp [handleCanvasClick, hTool, htrim]
  · rintro ⟨c, hc, hcw⟩
    have htrim : ¬ jsTrim st.newText = "" := by
      intro h
      exact hcw ((jsTrim_eq_empty_iff st.newText).mp h c hc)
    simp [handleCanvasClick, hTool, htrim]

/-- C10 witness: a pending text of a space, a no-break space (U+00A0) and
a vertical tab (U+000B) is rejected with the state unchanged. -/
theorem C10_witness :
    handleCanvasClick 7 { initialState with activeTool := Tool.text, newText := " \u00A0\u000B" }
        10 20 0 0 =
      ({ initialState with activeTool := Tool.text, newText := " \u00A0\u000B" },
        [Toast.error "Please enter text before placing it on the PDF"]) :=
  (C10_whitespace_only_rejected 7 _ 10 20 0 0 rfl).1 (by decide)

/-- C1: a completed blur-mode drag from start point `sp` to the
document-space release point appends the axis-aligned bounding rectangle
(top-left corner the componentwise minimum, dimensions the absolute
coordinate differences) exactly when both dimensions strictly exceed 10;
otherwise — equality with 10 included — the blur collection is unchanged. -/
theorem C1_blur_gesture_threshold (now : Nat) (st : EditorState)
    (clientX clientY rectLeft rectTop : ℚ) (sp : Point)
    (hDraw : st.isDrawing = true) (hSp : st.startPoint = some sp)
    (hTool : st.activeTool = Tool.blur) :
    (handleMouseUp now st clientX clientY rectLeft rectTop).1.blurAreas =
      if |(toDocumentSpace clientX clientY rectLeft rectTop st.scale).x - sp.x| > 10 ∧
          |(toDocumentSpace clientX clientY rectLeft rectTop st.scale).y - sp.y| > 10 then
        st.blurAreas ++
          [⟨mkAnnotationId now,
            min sp.x (toDocumentSpace clientX clientY rectLeft rectTop st.scale).x,
            min sp.y (toDocumentSpace clientX clientY rectLeft rectTop st.scale).y,
            |(toDocumentSpace clientX clientY rectLeft rectTop st.scale).x - sp.x|,
            |(toDocumentSpace clientX clientY rectLeft rectTop st.scale).y - sp.y|⟩]
      else st.blurAreas := by
  simp only [handleMouseUp, hSp, hDraw, hTool]
  split
  · split <;> rfl
  · simp_all

/-- C1 witness: from a drag started at the origin, releasing at (50, 50)
creates the 50-by-50 area, while releasing at exactly (10, 10) — both
dimensions equal to 10 — creates nothing. -/
theorem C1_witness :
    (handleMouseUp 5 drawingState 50 50 0 0).1.blurAreas =
      [⟨"5", 0, 0, 50, 50⟩] ∧
    (handleMouseUp 5 drawingState 10 10 0 0).1.blurAreas = [] := by
  have h1 := C1_blur_gesture_threshold 5 drawingState 50 50 0 0 ⟨0, 0⟩ rfl rfl rfl
  have h2 := C1_blur_gesture_threshold 5 drawingState 10 10 0 0 ⟨0, 0⟩ rfl rfl rfl
  rw [h1, h2]
  norm_num [toDocumentSpace, drawingState, initialState, mkAnnotationId, abs]
  decide

/-- C3: the export routine draws every stored text annotation at
`(x, pageHeight - y)` with its stored font size and its hex colour
components each divided by 255, and draws every stored blur area as a
filled rectangle at `(x, pageHeight - y - height)` with its stored
dimensions in neutral gray (equal components 0.8) at fixed opacity 0.7. -/
theorem C3_export_draws (pageHeight : ℚ) (ts : List TextAnnotation)
    (bs : List BlurArea) :
    (∀ a ∈ ts,
      DrawOp.drawText a.text a.x (pageHeight - a.y) a.fontSize
        ⟨(hexByte a.color 1 : ℚ) / 255, (hexByte a.color 3 : ℚ) / 255,
          (hexByte a.color 5 : ℚ) / 255⟩ ∈ exportPageOps pageHeight ts bs) ∧
    (∀ b ∈ bs,
      DrawOp.drawRectangle b.x (pageHeight - b.y - b.height) b.width b.height
        ⟨8/10, 8/10, 8/10⟩ (7/10) ∈ exportPageOps pageHeight ts bs) := by
  constructor
  · intro a ha
    have hm : DrawOp.drawText a.text a.x (pageHeight - a.y) a.fontSize
        (colorFromHex a.color) ∈ exportPageOps pageHeight ts bs :=
      List.mem_append_left _ (List.mem_map.mpr ⟨a, ha, rfl⟩)
    simpa [colorFromHex] using hm
  · intro b hb
    exact List.mem_append_right _ (List.mem_map.mpr ⟨b, hb, rfl⟩)

/-- C2: an erase-mode pointer-down at document point `(px, py)` keeps a
text annotation exactly when its anchor's Euclidean distance from the click
point exceeds 30 (so every annotation at distance at most 30 is removed),
keeps a blur area exactly when its rectangle does not contain the click
point with inclusive bounds, leaves the whole state unchanged when nothing
matches, and reports success rather than an error. -/
theorem C2_erase_click (st : EditorState) (clientX clientY rectLeft rectTop px py : ℚ)
    (hTool : st.activeTool = Tool.erase)
    (hpx : px = (toDocumentSpace clientX clientY rectLeft rectTop st.scale).x)
    (hpy : py = (toDocumentSpace clientX clientY rectLeft rectTop st.scale).y) :
    (∀ a, a ∈ (handleMouseDown st clientX clientY rectLeft rectTop).1.textAnnotations ↔
      (a ∈ st.textAnnotations ∧
        30 < Real.sqrt (((a.x - px : ℚ) : ℝ) ^ 2 + ((a.y - py : ℚ) : ℝ) ^ 2))) ∧
    (∀ area, area ∈ (handleMouseDown st clientX clientY rectLeft rectTop).1.blurAreas ↔
      (area ∈ st.blurAreas ∧
        ¬(area.x ≤ px ∧ px ≤ area.x + area.width ∧
          area.y ≤ py ∧ py ≤ area.y + area.height))) ∧
    ((∀ a ∈ st.textAnnotations,
        30 < Real.sqrt (((a.x - px : ℚ) : ℝ) ^ 2 + ((a.y - py : ℚ) : ℝ) ^ 2)) →
      (∀ area ∈ st.blurAreas,
        ¬(area.x ≤ px ∧ px ≤ area.x + area.width ∧
          area.y ≤ py ∧ py ≤ area.y + area.height)) →
      (handleMouseDown st clientX clientY rectLeft rectTop).1 = st) ∧
    (handleMouseDown st clientX clientY rectLeft rectTop).2 =
      [Toast.success "Annotation erased"] := by
  subst hpx
  subst hpy
  refine ⟨?_, ?_, ?_, ?_⟩
  · intro a
    simp only [handleMouseDown, hTool, List.mem_filter, keepTextOnErase_eq_true_iff]
  · intro area
    simp only [handleMouseDown, hTool, List.mem_filter, keepBlurOnErase_eq_true_iff]
  · intro h1 h2
    have hf1 : st.textAnnotations.filter
        (keepTextOnErase (toDocumentSpace clientX clientY rectLeft rectTop st.scale)) =
        st.textAnnotations :=
      List.filter_eq_self.mpr
        (fun a ha => (keepTextOnErase_eq_true_iff _ _).mpr (h1 a ha))
    have hf2 : st.blurAreas.filter
        (keepBlurOnErase (toDocumentSpace clientX clientY rectLeft rectTop st.scale)) =
        st.blurAreas :=
      List.filter_eq_self.mpr
        (fun area ha => (keepBlurOnErase_eq_true_iff _ _).mpr (h2 area ha))
    simp only [handleMouseDown, hTool, hf1, hf2]
    rw [← hTool]
  · simp only [handleMouseDown, hTool]

/-- C2 witness: erasing at document point (18, 24) removes the annotation
anchored at the origin (distance exactly 30) and the blur area containing
the point, while the far annotation and the far blur area survive. -/
theorem C2_witness :
    annOrigin ∉ (handleMouseDown eraseState 18 24 0 0).1.textAnnotations ∧
    annFar ∈ (handleMouseDown eraseState 18 24 0 0).1.textAnnotations ∧
    blurBig ∉ (handleMouseDown eraseState 18 24 0 0).1.blurAreas ∧
    blurFar ∈ (handleMouseDown eraseState 18 24 0 0).1.blurAreas := by
  have h := C2_erase_click eraseState 18 24 0 0 18 24 rfl
    (by norm_num [toDocumentSpace, eraseState, initialState])
    (by norm_num [toDocumentSpace, eraseState, initialState])
  refine ⟨?_, ?_, ?_, ?_⟩
  · intro hmem
    have hd := ((h.1 annOrigin).mp hmem).2
    rw [dist_gt_thirty_iff] at hd
    norm_num [annOrigin] at hd
  · refine (h.1 annFar).mpr ⟨by simp [eraseState], ?_⟩
    rw [dist_gt_thirty_iff]
    norm_num [annFar]
  · intro hmem
    have hd := ((h.2.1 blurBig).mp hmem).2
    apply hd
    norm_num [blurBig]
  · refine (h.2.1 blurFar).mpr ⟨by simp [eraseState], ?_⟩
    norm_num [blurFar]

/-- C6 counterexample: starting a blur drag, switching away from the blur
tool (which leaves the drawing sub-state pending, second conjunct), then
switching back and releasing does create a BlurArea from that drag — so a
drag interrupted by a tool switch is not unconditionally cancelled. -/
theorem C6_counterexample :
    ((run initialState [Event.toolSelect Tool.blur, Event.mouseDown 0 0 0 0,
      Event.toolSelect Tool.select, Event.toolSelect Tool.blur,
      Event.mouseUp 5 50 50 0 0]).blurAreas.map BlurArea.id) = ["5"] ∧
    (run initialState [Event.toolSelect Tool.blur, Event.mouseDown 0 0 0 0,
      Event.toolSelect Tool.select]).isDrawing = true := by
  constructor
  · norm_num [run, step, selectTool, handleMouseDown, handleMouseUp, toDocumentSpace,
      mkAnnotationId, initialState, abs]
    decide
  · decide

/-- C6 (amended): switching away from the blur tool during a drag does not
clear the pending drawing sub-state, but as long as the blur tool is not
selected again, no subsequent sequence of events ever adds a BlurArea: the
tool stays away from blur and every blur area present afterwards was
already present at the switch. -/
theorem C6_switch_away_no_creation (st : EditorState) (evs : List Event)
    (hTool : st.activeTool ≠ Tool.blur)
    (hNo : Event.toolSelect Tool.blur ∉ evs) :
    (run st evs).activeTool ≠ Tool.blur ∧
    ∀ b ∈ (run st evs).blurAreas, b ∈ st.blurAreas := by
  induction evs generalizing st with
  | nil => exact ⟨hTool, fun b hb => hb⟩
  | cons e es ih =>
    have he : e ≠ Event.toolSelect Tool.blur := by
      intro h
      apply hNo
      rw [← h]
      exact List.mem_cons_self e es
    have hes : Event.toolSelect Tool.blur ∉ es :=
      fun h => hNo (List.mem_cons_of_mem e h)
    obtain ⟨h1, h2⟩ := step_no_blur_creation st e hTool he
    obtain ⟨h3, h4⟩ := ih (step st e).1 h1 hes
    exact ⟨h3, fun b hb => h2 b (h4 b hb)⟩

/-- C6 witness: from the state reached by switching to the select tool in
the middle of a blur drag, a pointer-up adds nothing. -/
theorem C6_witness :
    (run { drawingState with activeTool := Tool.select }
        [Event.mouseUp 5 50 50 0 0]).activeTool ≠ Tool.blur ∧
    ∀ b ∈ (run { drawingState with activeTool := Tool.select }
        [Event.mouseUp 5 50 50 0 0]).blurAreas,
      b ∈ ({ drawingState with activeTool := Tool.select } : EditorState).blurAreas :=
  C6_switch_away_no_creation _ _ (by decide) (by decide)

/-- C7 counterexample: after a document load failure the stored file handle
is still present — the session is not in a NoDocument-equivalent state. -/
theorem C7_counterexample :
    ((onDocumentLoadError
      (handleFileUpload initialState (some samplePdf)).1).1).pdfFile ≠ none := by
  decide

/-- C7 (amended): a document load failure clears only the loading flag
(leaving the editor interactable) and reports the failure; no annotations
are retained (both collections were already cleared by the upload), but the
rejected file handle remains stored rather than reverting to the
no-document state. -/
theorem C7_load_failure_keeps_file (st : EditorState) (f : FileRef)
    (hf : f.fileType = "application/pdf") :
    (onDocumentLoadError (handleFileUpload st (some f)).1).1 =
      { (handleFileUpload st (some f)).1 with pdfLoading := false } ∧
    (onDocumentLoadError (handleFileUpload st (some f)).1).1.pdfFile = some f ∧
    (onDocumentLoadError (handleFileUpload st (some f)).1).1.textAnnotations = [] ∧
    (onDocumentLoadError (handleFileUpload st (some f)).1).1.blurAreas = [] ∧
    (onDocumentLoadError (handleFileUpload st (some f)).1).1.pdfLoading = false ∧
    (onDocumentLoadError (handleFileUpload st (some f)).1).2 =
      [Toast.error "Failed to load PDF file. Please try again."] := by
  refine ⟨rfl, ?_, ?_, ?_, rfl, rfl⟩ <;> simp [onDocumentLoadError, handleFileUpload, hf]

/-- C7 witness: a concrete upload followed by a load failure. -/
theorem C7_witness :
    (onDocumentLoadError (handleFileUpload initialState (some samplePdf)).1).1 =
      { (handleFileUpload initialState (some samplePdf)).1 with pdfLoading := false } ∧
    (onDocumentLoadError
      (handleFileUpload initialState (some samplePdf)).1).1.pdfFile = some samplePdf ∧
    (onDocumentLoadError
      (handleFileUpload initialState (some samplePdf)).1).1.textAnnotations = [] ∧
    (onDocumentLoadError
      (handleFileUpload initialState (some samplePdf)).1).1.blurAreas = [] ∧
    (onDocumentLoadError
      (handleFileUpload initialState (some samplePdf)).1).1.pdfLoading = false ∧
    (onDocumentLoadError (handleFileUpload initialState (some samplePdf)).1).2 =
      [Toast.error "Failed to load PDF file. Please try again."] :=
  C7_load_failure_keeps_file initialState samplePdf rfl

/-- C9 counterexample: two text annotations placed in the same session
during the same clock millisecond (1000) are distinct annotations — their
texts differ — yet they carry the same identifier. -/
theorem C9_counterexample :
    ((run initialState [Event.toolSelect Tool.text, Event.setText "A",
      Event.canvasClick 1000 10 10 0 0, Event.setText "B",
      Event.canvasClick 1000 20 20 0 0]).textAnnotations.map TextAnnotation.id) =
      ["1000", "1000"] ∧
    ((run initialState [Event.toolSelect Tool.text, Event.setText "A",
      Event.canvasClick 1000 10 10 0 0, Event.setText "B",
      Event.canvasClick 1000 20 20 0 0]).textAnnotations.map TextAnnotation.text) =
      ["A", "B"] := by
  constructor <;> decide

/-- C9 (amended): the identifier of a newly created annotation is exactly
the `Date.now()` millisecond reading rendered in decimal, so two creations
receive the same identifier precisely when they happen during the same
millisecond: identifiers are unique only across distinct clock readings,
not unconditionally. -/
theorem C9_id_collision_iff_same_millisecond (m n : Nat) :
    mkAnnotationId m = mkAnnotationId n ↔ m = n := by
  constructor
  · exact natRepr_inj m n
  · intro h
    rw [h]

/-- C3 witness: the draws for a concrete annotation and blur area on a page
of height 800. -/
theorem C3_witness :
    DrawOp.drawText annOrigin.text annOrigin.x (800 - annOrigin.y) annOrigin.fontSize
      ⟨(hexByte annOrigin.color 1 : ℚ) / 255, (hexByte annOrigin.color 3 : ℚ) / 255,
        (hexByte annOrigin.color 5 : ℚ) / 255⟩ ∈ exportPageOps 800 [annOrigin] [blurBig] ∧
    DrawOp.drawRectangle blurBig.x (800 - blurBig.y - blurBig.height) blurBig.width
      blurBig.height ⟨8/10, 8/10, 8/10⟩ (7/10) ∈ exportPageOps 800 [annOrigin] [blurBig] :=
  ⟨(C3_export_draws 800 [annOrigin] [blurBig]).1 annOrigin (List.mem_singleton_self _),
    (C3_export_draws 800 [annOrigin] [blurBig]).2 blurBig (List.mem_singleton_self _)⟩

end PDFEditor
